import Mathlib

/-!
Verification of the external MQTT command bridge
(internal/core/command/controller/messaging/external.go).

Topics and payloads are modelled as lists of characters (`Str`), so that
Go's strings.Split on "/" becomes `List.splitOn '/'` and strings.Join
becomes `List.intercalate ['/']`.  The two MQTT message handlers are
embedded as pure functions that return the list of broker publishes they
perform; an empty list means the handler returned without publishing.
Out-of-scope collaborators (the envelope JSON codec, routing resolution,
query-parameter validation, the internal message-bus request call and the
command-query service) are passed in as function-valued parameters, so the
theorems quantify over every possible collaborator behaviour.
-/

/-- Character strings: Go string values, viewed as their character lists. -/
abbrev Str := List Char

/-- The topic-level separator used by strings.Split and strings.Join. -/
def slash : Char := '/'

/-- ASCII lower-casing of one character, the case folding performed by
Go's strings.EqualFold on ASCII input (all strings compared case
insensitively in this file are ASCII: "get", "set", "all"). -/
def asciiLower (c : Char) : Char :=
  if 'A' ≤ c ∧ c ≤ 'Z' then Char.ofNat (c.toNat + 32) else c

/-- Go strings.EqualFold, restricted to ASCII folding: equality after
lower-casing every character. -/
def equalFold (a b : Str) : Bool :=
  decide (a.map asciiLower = b.map asciiLower)

/-- The message envelope exchanged on both buses (go-mod-messaging
types.MessageEnvelope), with the fields this bridge reads or writes.
Payload bytes are modelled as a `String`. -/
structure MessageEnvelope where
  requestID : String
  correlationID : String
  apiVersion : String
  errorCode : Nat
  payload : String
  contentType : String
  queryParams : List (String × String)
deriving Repr, DecidableEq

/-- Modelled from the spec: types.NewMessageEnvelopeWithError from the
external messaging library (an external collaborator, not in this
repository slice).  Per the spec's data model and error-handling design it
produces an envelope carrying the given request id, error code 1 and the
failure message as payload; the remaining fields are fixed defaults that
no claim depends on. -/
def NewMessageEnvelopeWithError (requestID : String) (errorMessage : String) : MessageEnvelope :=
  { requestID := requestID
    correlationID := ""
    apiVersion := "v3"
    errorCode := 1
    payload := errorMessage
    contentType := "application/json"
    queryParams := [] }

/-- The slice of ExternalMQTT configuration the handlers read: the two
outbound topic entries (a missing map entry is the empty string, hence the
empty list here), the quality-of-service level and the retain flag. -/
structure ExternalMQTTInfo where
  queryResponseTopic : Str
  commandResponseRoot : Str
  qos : Nat
  retain : Bool
deriving Repr, DecidableEq

/-- The slice of internal MessageBus configuration the request handler
reads: the device-command request topic root passed to routing
resolution. -/
structure MessageBusInfo where
  deviceCommandRequestRoot : Str
deriving Repr, DecidableEq

/-- Immutable process configuration as seen by the two handlers. -/
structure ConfigurationStruct where
  externalMQTT : ExternalMQTTInfo
  messageBus : MessageBusInfo
deriving Repr, DecidableEq

/-- An inbound external MQTT message: its topic and its raw payload. -/
structure MqttMessage where
  topic : Str
  payload : Str
deriving Repr, DecidableEq

/-- One outbound broker publish performed by a handler via publishMessage:
destination topic, delivery options and the envelope handed over. -/
structure Publish where
  topic : Str
  qos : Nat
  retain : Bool
  env : MessageEnvelope
deriving Repr, DecidableEq

/-- Modelled from the spec: the interface of the collaborators the
handlers call, which live outside this source slice.
NewMessageEnvelopeFromJSON is the envelope codec's decoder;
validateRequestTopic resolves routing from (topic root, device, command,
method) to (device service name, internal request topic) or an error;
validateGetCommandQueryParameters checks a query-parameter map;
request is the internal bus's bounded-time request/response call;
getCommandQueryResponseEnvelope answers a command query for a device
name.  Each is an arbitrary function, so theorems hold for every
collaborator behaviour. -/
structure Collaborators where
  NewMessageEnvelopeFromJSON : Str → Except String MessageEnvelope
  validateRequestTopic : Str → Str → Str → Str → Except String (Str × Str)
  validateGetCommandQueryParameters : List (String × String) → Except String Unit
  request : MessageEnvelope → Str → Str → Except String MessageEnvelope
  getCommandQueryResponseEnvelope : MessageEnvelope → Str → Except String MessageEnvelope

/-- Go strings.Join with separator "/". -/
def goJoin (parts : List Str) : Str :=
  List.intercalate [slash] parts

/-- The literal "get" compared against the method topic level. -/
def getMethod : Str := ['g', 'e', 't']

/-- The literal "set" compared against the method topic level. -/
def setMethod : Str := ['s', 'e', 't']

/-- The canonical sentinel common.All meaning every device. -/
def allKeyword : Str := ['a', 'l', 'l']

/-- The fixed text prepended to an internal bus failure before it is put
in the error envelope (external.go line 145). -/
def internalBusFailureText : String :=
  "Failed to send DeviceCommand request with internal MessageBus: "

/-- Device-name extraction of commandQueryHandler before the "all"
normalization (external.go lines 72-73): the last topic level. -/
def rawQueryDeviceName (topic : Str) : Str :=
  let topicLevels := topic.splitOn slash
  topicLevels.getD (topicLevels.length - 1) []

/-- Device-name extraction of commandQueryHandler including the
case-insensitive normalization of the "all" keyword (lines 72-76). -/
def queryDeviceName (topic : Str) : Str :=
  let deviceName := rawQueryDeviceName topic
  if equalFold deviceName allKeyword then allKeyword else deviceName

/-- Command-topic parsing as performed inline by commandRequestHandler
(external.go lines 103-114): split the topic on '/', fail when there are
fewer than 3 levels, otherwise take the last three levels as
(device name, command name, method). -/
def parseCommandTopic (topic : Str) : Option (Str × Str × Str) :=
  let topicLevels := topic.splitOn slash
  let length := topicLevels.length
  if length < 3 then none
  else some (topicLevels.getD (length - 3) [],
             topicLevels.getD (length - 2) [],
             topicLevels.getD (length - 1) [])

/-- The command query handler (external.go lines 49-87), as the list of
publishes it performs: decode the payload, require a configured query
response topic, extract the device name from the last topic level, ask
the command-query collaborator, turn a collaborator failure into an error
envelope, and publish the result. -/
def commandQueryHandler (config : ConfigurationStruct) (collab : Collaborators)
    (message : MqttMessage) : List Publish :=
  match collab.NewMessageEnvelopeFromJSON message.payload with
  | .error _ => []
  | .ok requestEnvelope =>
    let externalMQTTInfo := config.externalMQTT
    let responseTopic := externalMQTTInfo.queryResponseTopic
    if responseTopic = [] then []
    else
      let deviceName := queryDeviceName message.topic
      let responseEnvelope :=
        match collab.getCommandQueryResponseEnvelope requestEnvelope deviceName with
        | .error e => NewMessageEnvelopeWithError requestEnvelope.requestID e
        | .ok env => env
      [⟨responseTopic, externalMQTTInfo.qos, externalMQTTInfo.retain, responseEnvelope⟩]

/-- The command request handler (external.go lines 89-155), as the list of
publishes it performs: decode the payload, parse the last three topic
levels, reject unknown methods silently, build the external response
topic, then resolve routing, validate query parameters and issue the
internal bus request, publishing an error envelope on each failure and
the received response envelope on success. -/
def commandRequestHandler (config : ConfigurationStruct) (collab : Collaborators)
    (message : MqttMessage) : List Publish :=
  let externalMQTTInfo := config.externalMQTT
  let qos := externalMQTTInfo.qos
  let retain := externalMQTTInfo.retain
  match collab.NewMessageEnvelopeFromJSON message.payload with
  | .error _ => []
  | .ok requestEnvelope =>
    let topicLevels := message.topic.splitOn slash
    let length := topicLevels.length
    if length < 3 then []
    else
      let deviceName := topicLevels.getD (length - 3) []
      let commandName := topicLevels.getD (length - 2) []
      let method := topicLevels.getD (length - 1) []
      if !(equalFold method getMethod) && !(equalFold method setMethod) then []
      else
        let externalResponseTopic :=
          goJoin [externalMQTTInfo.commandResponseRoot, deviceName, commandName, method]
        match collab.validateRequestTopic config.messageBus.deviceCommandRequestRoot
            deviceName commandName method with
        | .error e =>
          [⟨externalResponseTopic, qos, retain,
            NewMessageEnvelopeWithError requestEnvelope.requestID e⟩]
        | .ok (deviceServiceName, deviceRequestTopic) =>
          match collab.validateGetCommandQueryParameters requestEnvelope.queryParams with
          | .error e =>
            [⟨externalResponseTopic, qos, retain,
              NewMessageEnvelopeWithError requestEnvelope.requestID e⟩]
          | .ok _ =>
            match collab.request requestEnvelope deviceServiceName deviceRequestTopic with
            | .error err =>
              [⟨externalResponseTopic, qos, retain,
                NewMessageEnvelopeWithError requestEnvelope.requestID
                  (internalBusFailureText ++ err)⟩]
            | .ok response =>
              [⟨externalResponseTopic, qos, retain, response⟩]

/-- One outbound publish at the broker-client level: the serialized bytes
actually handed to client.Publish. -/
structure BrokerPublish where
  topic : Str
  qos : Nat
  retain : Bool
  payloadBytes : Str
deriving Repr, DecidableEq

/-- A log line, reduced to its severity and text. -/
inductive LogEntry
  | logError (s : String)
  | logDebug (s : String)
deriving Repr, DecidableEq

/-- The response publisher publishMessage (external.go lines 157-169).
marshal stands for json.Marshal, returning the bytes together with a
possible error; publishErr is the broker token's error, if any.  The
function logs the payload of error envelopes, discards the marshal error,
always performs exactly one broker publish with the marshalled bytes, and
logs the publish outcome; it returns nothing but the publish and its log
lines (log text abbreviated). -/
def publishMessage (marshal : MessageEnvelope → Str × Option String)
    (publishErr : Option String) (responseTopic : Str) (qos : Nat) (retain : Bool)
    (message : MessageEnvelope) : BrokerPublish × List LogEntry :=
  let errLogs := if message.errorCode = 1 then [LogEntry.logError message.payload] else []
  let envelopeBytes := (marshal message).1
  let outcomeLogs :=
    match publishErr with
    | some e => [LogEntry.logError e]
    | none => [LogEntry.logDebug "published response message"]
  (⟨responseTopic, qos, retain, envelopeBytes⟩, errLogs ++ outcomeLogs)

/-- A sample request envelope used to instantiate theorems on concrete inputs. -/
def envSample : MessageEnvelope :=
  { requestID := "R1"
    correlationID := "C1"
    apiVersion := "v3"
    errorCode := 0
    payload := "42"
    contentType := "application/json"
    queryParams := [] }

/-- A sample configuration with non-empty outbound topics. -/
def configSample : ConfigurationStruct :=
  { externalMQTT :=
      { queryResponseTopic := ['q']
        commandResponseRoot := ['r']
        qos := 1
        retain := false }
    messageBus := { deviceCommandRequestRoot := ['i'] } }

/-- Collaborators for which every step succeeds. -/
def collabOk : Collaborators :=
  { NewMessageEnvelopeFromJSON := fun _ => .ok envSample
    validateRequestTopic := fun _ _ _ _ => .ok (['s'], ['t'])
    validateGetCommandQueryParameters := fun _ => .ok ()
    request := fun env _ _ => .ok { env with payload := "response" }
    getCommandQueryResponseEnvelope := fun env _ => .ok env }

/-- Collaborators whose query-parameter validation rejects every input. -/
def collabBadParams : Collaborators :=
  { collabOk with validateGetCommandQueryParameters := fun _ => .error "bad" }

/-- Collaborators whose internal bus request times out. -/
def collabBusTimeout : Collaborators :=
  { collabOk with request := fun _ _ _ => .error "timeout" }

/-- Unfolding a successful parse into the facts about the split topic
that commandRequestHandler computes inline. -/
theorem parseCommandTopic_some {topic d c m : Str}
    (h : parseCommandTopic topic = some (d, c, m)) :
    3 ≤ (topic.splitOn slash).length ∧
    (topic.splitOn slash).getD ((topic.splitOn slash).length - 3) [] = d ∧
    (topic.splitOn slash).getD ((topic.splitOn slash).length - 2) [] = c ∧
    (topic.splitOn slash).getD ((topic.splitOn slash).length - 1) [] = m := by
  unfold parseCommandTopic at h
  simp only at h
  split at h
  · exact absurd h (by simp)
  · next hlen =>
    rw [Option.some_inj] at h
    simp only [Prod.mk.injEq] at h
    obtain ⟨h1, h2, h3⟩ := h
    exact ⟨by omega, h1, h2, h3⟩

/-- After a successful decode and a successful parse, the command request
handler is the residual pipeline over the parsed (device, command,
method) triple. -/
theorem commandRequestHandler_parsed (config : ConfigurationStruct) (collab : Collaborators)
    (message : MqttMessage) (env : MessageEnvelope) (d c m : Str)
    (hdec : collab.NewMessageEnvelopeFromJSON message.payload = .ok env)
    (hparse : parseCommandTopic message.topic = some (d, c, m)) :
    commandRequestHandler config collab message =
      if !(equalFold m getMethod) && !(equalFold m setMethod) then []
      else
        match collab.validateRequestTopic config.messageBus.deviceCommandRequestRoot d c m with
        | .error e =>
          [⟨goJoin [config.externalMQTT.commandResponseRoot, d, c, m],
            config.externalMQTT.qos, config.externalMQTT.retain,
            NewMessageEnvelopeWithError env.requestID e⟩]
        | .ok (deviceServiceName, deviceRequestTopic) =>
          match collab.validateGetCommandQueryParameters env.queryParams with
          | .error e =>
            [⟨goJoin [config.externalMQTT.commandResponseRoot, d, c, m],
              config.externalMQTT.qos, config.externalMQTT.retain,
              NewMessageEnvelopeWithError env.requestID e⟩]
          | .ok _ =>
            match collab.request env deviceServiceName deviceRequestTopic with
            | .error err =>
              [⟨goJoin [config.externalMQTT.commandResponseRoot, d, c, m],
                config.externalMQTT.qos, config.externalMQTT.retain,
                NewMessageEnvelopeWithError env.requestID (internalBusFailureText ++ err)⟩]
            | .ok response =>
              [⟨goJoin [config.externalMQTT.commandResponseRoot, d, c, m],
                config.externalMQTT.qos, config.externalMQTT.retain, response⟩] := by
  obtain ⟨hlen, hd, hc, hm⟩ := parseCommandTopic_some hparse
  unfold commandRequestHandler
  rw [hdec]
  simp only
  rw [if_neg (by omega), hd, hc, hm]

/-- Collaborators whose decoder fails exactly on the payload "x". -/
def collabDecodeSwitch : Collaborators :=
  { collabOk with
    NewMessageEnvelopeFromJSON := fun p => if p = ['x'] then .error "bad JSON" else .ok envSample }

/-- The sample configuration with the query response topic left empty. -/
def configNoQrt : ConfigurationStruct :=
  { configSample with
    externalMQTT := { configSample.externalMQTT with queryResponseTopic := [] } }

/-- C1, counterexample: the claim says a command request whose method
level is neither "get" nor "set" still gets an error envelope published
to the constructed response topic; on topic a/b/d with a decodable
envelope the handler in fact publishes nothing at all. -/
theorem invalidMethod_publishes_counterexample :
    parseCommandTopic ['a', '/', 'b', '/', 'd'] = some (['a'], ['b'], ['d']) ∧
    equalFold ['d'] getMethod = false ∧
    equalFold ['d'] setMethod = false ∧
    commandRequestHandler configSample collabOk ⟨['a', '/', 'b', '/', 'd'], []⟩ = [] := by
  refine ⟨?_, ?_, ?_, ?_⟩ <;> decide

/-- C1, amended: when the topic parses into at least 3 levels but the
method level is neither "get" nor "set" case-insensitively, the command
request handler logs and returns without publishing anything. -/
theorem invalidMethod_silentDrop (config : ConfigurationStruct) (collab : Collaborators)
    (message : MqttMessage) (env : MessageEnvelope) (d c m : Str)
    (hdec : collab.NewMessageEnvelopeFromJSON message.payload = .ok env)
    (hparse : parseCommandTopic message.topic = some (d, c, m))
    (hget : equalFold m getMethod = false)
    (hset : equalFold m setMethod = false) :
    commandRequestHandler config collab message = [] := by
  rw [commandRequestHandler_parsed config collab message env d c m hdec hparse]
  simp [hget, hset]

/-- C1, witness for the amended statement at topic x/a/b/d. -/
theorem invalidMethod_silentDrop_witness :
    parseCommandTopic ['x', '/', 'a', '/', 'b', '/', 'd'] = some (['a'], ['b'], ['d']) ∧
    commandRequestHandler configSample collabOk ⟨['x', '/', 'a', '/', 'b', '/', 'd'], ['p']⟩ = [] :=
  ⟨by decide,
   invalidMethod_silentDrop configSample collabOk ⟨['x', '/', 'a', '/', 'b', '/', 'd'], ['p']⟩
     envSample ['a'] ['b'] ['d'] rfl (by decide) (by decide) (by decide)⟩

/-- C2: for a decodable request whose topic parses and whose method is
"get" or "set" case-insensitively, a failure of routing resolution, of
query-parameter validation or of the internal bus request makes the
handler publish exactly one envelope, an error envelope built by
NewMessageEnvelopeWithError from the original request id (hence error
code 1 and the original RequestID), to the topic
response-root/device/command/method, and nothing else. -/
theorem errorAnswerability (config : ConfigurationStruct) (collab : Collaborators)
    (message : MqttMessage) (env : MessageEnvelope) (d c m : Str)
    (hdec : collab.NewMessageEnvelopeFromJSON message.payload = .ok env)
    (hparse : parseCommandTopic message.topic = some (d, c, m))
    (hmethod : equalFold m getMethod = true ∨ equalFold m setMethod = true)
    (hfail :
      (∃ e, collab.validateRequestTopic config.messageBus.deviceCommandRequestRoot d c m
          = .error e) ∨
      (∃ sn rt, collab.validateRequestTopic config.messageBus.deviceCommandRequestRoot d c m
          = .ok (sn, rt) ∧
        ((∃ e, collab.validateGetCommandQueryParameters env.queryParams = .error e) ∨
         (collab.validateGetCommandQueryParameters env.queryParams = .ok () ∧
          ∃ e, collab.request env sn rt = .error e)))) :
    ∃ msg : String,
      commandRequestHandler config collab message =
        [⟨goJoin [config.externalMQTT.commandResponseRoot, d, c, m],
          config.externalMQTT.qos, config.externalMQTT.retain,
          NewMessageEnvelopeWithError env.requestID msg⟩] := by
  rw [commandRequestHandler_parsed config collab message env d c m hdec hparse]
  have hcond : (!(equalFold m getMethod) && !(equalFold m setMethod)) = false := by
    rcases hmethod with h | h <;> simp [h]
  rcases hfail with ⟨e, he⟩ | ⟨sn, rt, hok, ⟨e, he⟩ | ⟨hparams, e, he⟩⟩
  · exact ⟨e, by simp [hcond, he]⟩
  · exact ⟨e, by simp [hcond, hok, he]⟩
  · exact ⟨internalBusFailureText ++ e, by simp [hcond, hok, hparams, he]⟩

/-- C2, witness: a timing-out internal bus request on topic a/b/get. -/
theorem errorAnswerability_witness :
    (∃ e, collabBusTimeout.request envSample ['s'] ['t'] = Except.error e) ∧
    ∃ msg : String,
      commandRequestHandler configSample collabBusTimeout
          ⟨['a', '/', 'b', '/', 'g', 'e', 't'], []⟩ =
        [⟨goJoin [configSample.externalMQTT.commandResponseRoot, ['a'], ['b'], getMethod],
          configSample.externalMQTT.qos, configSample.externalMQTT.retain,
          NewMessageEnvelopeWithError envSample.requestID msg⟩] :=
  ⟨⟨"timeout", rfl⟩,
   errorAnswerability configSample collabBusTimeout ⟨['a', '/', 'b', '/', 'g', 'e', 't'], []⟩
     envSample ['a'] ['b'] getMethod rfl (by decide)
     (Or.inl (by decide))
     (Or.inr ⟨['s'], ['t'], rfl, Or.inr ⟨rfl, "timeout", rfl⟩⟩)⟩

/-- C3: a decode failure (on either handler), a command topic with fewer
than 3 levels, and an empty configured query response topic each make the
respective handler return without publishing anything. -/
theorem unanswerableNoPublish (config : ConfigurationStruct) (collab : Collaborators)
    (t1 p1 t2 p2 t3 p3 : Str) (e : String) (env2 env3 : MessageEnvelope)
    (hdec1 : collab.NewMessageEnvelopeFromJSON p1 = .error e)
    (hdec2 : collab.NewMessageEnvelopeFromJSON p2 = .ok env2)
    (hlen2 : (t2.splitOn slash).length < 3)
    (hdec3 : collab.NewMessageEnvelopeFromJSON p3 = .ok env3)
    (hqrt : config.externalMQTT.queryResponseTopic = []) :
    commandRequestHandler config collab ⟨t1, p1⟩ = [] ∧
    commandQueryHandler config collab ⟨t1, p1⟩ = [] ∧
    commandRequestHandler config collab ⟨t2, p2⟩ = [] ∧
    commandQueryHandler config collab ⟨t3, p3⟩ = [] := by
  refine ⟨?_, ?_, ?_, ?_⟩
  · simp [commandRequestHandler, hdec1]
  · simp [commandQueryHandler, hdec1]
  · simp [commandRequestHandler, hdec2, hlen2]
  · simp [commandQueryHandler, hdec3, hqrt]

/-- C3, witness: a bad payload, the 2-level topic a/b, and the sample
configuration without a query response topic. -/
theorem unanswerableNoPublish_witness :
    collabDecodeSwitch.NewMessageEnvelopeFromJSON ['x'] = Except.error "bad JSON" ∧
    ((['a', '/', 'b'] : Str).splitOn slash).length < 3 ∧
    configNoQrt.externalMQTT.queryResponseTopic = [] ∧
    (commandRequestHandler configNoQrt collabDecodeSwitch ⟨['t'], ['x']⟩ = [] ∧
     commandQueryHandler configNoQrt collabDecodeSwitch ⟨['t'], ['x']⟩ = [] ∧
     commandRequestHandler configNoQrt collabDecodeSwitch ⟨['a', '/', 'b'], ['p']⟩ = [] ∧
     commandQueryHandler configNoQrt collabDecodeSwitch ⟨['q'], ['p']⟩ = []) :=
  ⟨rfl, by decide, rfl,
   unanswerableNoPublish configNoQrt collabDecodeSwitch
     ['t'] ['x'] ['a', '/', 'b'] ['p'] ['q'] ['p'] "bad JSON" envSample envSample
     rfl rfl (by decide) rfl rfl⟩

/-- C4, counterexample: the claim says query parameters cannot cause an
error response for a "set" request; with failing query-parameter
validation the handler in fact publishes the validation error envelope
for the set request a/b/set. -/
theorem setQueryParams_counterexample :
    commandRequestHandler configSample collabBadParams ⟨['a', '/', 'b', '/', 's', 'e', 't'], []⟩ =
      [⟨goJoin [configSample.externalMQTT.commandResponseRoot, ['a'], ['b'], setMethod],
        configSample.externalMQTT.qos, configSample.externalMQTT.retain,
        NewMessageEnvelopeWithError "R1" "bad"⟩] ∧
    (NewMessageEnvelopeWithError "R1" "bad").errorCode = 1 := by
  refine ⟨?_, ?_⟩ <;> decide

/-- C4, amended: query-parameter validation is applied unconditionally,
whatever the method; in particular a "set" request whose query parameters
fail validation (after successful routing) receives the validation error
envelope. -/
theorem queryParamsCheckedUnconditionally (config : ConfigurationStruct) (collab : Collaborators)
    (message : MqttMessage) (env : MessageEnvelope) (d c m sn rt : Str) (e : String)
    (hdec : collab.NewMessageEnvelopeFromJSON message.payload = .ok env)
    (hparse : parseCommandTopic message.topic = some (d, c, m))
    (hset : equalFold m setMethod = true)
    (hrouting : collab.validateRequestTopic config.messageBus.deviceCommandRequestRoot d c m
      = .ok (sn, rt))
    (hparams : collab.validateGetCommandQueryParameters env.queryParams = .error e) :
    commandRequestHandler config collab message =
      [⟨goJoin [config.externalMQTT.commandResponseRoot, d, c, m],
        config.externalMQTT.qos, config.externalMQTT.retain,
        NewMessageEnvelopeWithError env.requestID e⟩] := by
  rw [commandRequestHandler_parsed config collab message env d c m hdec hparse]
  simp [hset, hrouting, hparams]

/-- C4, witness: the set request a/b/set with rejected query parameters. -/
theorem queryParamsCheckedUnconditionally_witness :
    equalFold setMethod setMethod = true ∧
    commandRequestHandler configSample collabBadParams ⟨['a', '/', 'b', '/', 's', 'e', 't'], []⟩ =
      [⟨goJoin [configSample.externalMQTT.commandResponseRoot, ['a'], ['b'], setMethod],
        configSample.externalMQTT.qos, configSample.externalMQTT.retain,
        NewMessageEnvelopeWithError envSample.requestID "bad"⟩] :=
  ⟨by decide,
   queryParamsCheckedUnconditionally configSample collabBadParams
     ⟨['a', '/', 'b', '/', 's', 'e', 't'], []⟩ envSample
     ['a'] ['b'] setMethod ['s'] ['t'] "bad" rfl (by decide) (by decide) rfl rfl⟩

/-- C5, counterexample: the claim says the internal bus failure message
is surfaced verbatim as the payload; on a timing-out request the payload
is in fact the failure message prefixed with a fixed descriptive text,
which differs from the verbatim message. -/
theorem busFailureVerbatim_counterexample :
    (commandRequestHandler configSample collabBusTimeout
        ⟨['a', '/', 'b', '/', 'g', 'e', 't'], []⟩).map (fun p => p.env.payload) =
      [internalBusFailureText ++ "timeout"] ∧
    internalBusFailureText ++ "timeout" ≠ "timeout" := by
  refine ⟨?_, ?_⟩ <;> decide

/-- C5, amended: on an internal bus request failure the published error
envelope's payload is the fixed text "Failed to send DeviceCommand
request with internal MessageBus: " followed by the collaborator's
failure message verbatim. -/
theorem busFailureMessageWrapped (config : ConfigurationStruct) (collab : Collaborators)
    (message : MqttMessage) (env : MessageEnvelope) (d c m sn rt : Str) (err : String)
    (hdec : collab.NewMessageEnvelopeFromJSON message.payload = .ok env)
    (hparse : parseCommandTopic message.topic = some (d, c, m))
    (hmethod : equalFold m getMethod = true ∨ equalFold m setMethod = true)
    (hrouting : collab.validateRequestTopic config.messageBus.deviceCommandRequestRoot d c m
      = .ok (sn, rt))
    (hparams : collab.validateGetCommandQueryParameters env.queryParams = .ok ())
    (hreq : collab.request env sn rt = .error err) :
    commandRequestHandler config collab message =
      [⟨goJoin [config.externalMQTT.commandResponseRoot, d, c, m],
        config.externalMQTT.qos, config.externalMQTT.retain,
        NewMessageEnvelopeWithError env.requestID (internalBusFailureText ++ err)⟩] := by
  rw [commandRequestHandler_parsed config collab message env d c m hdec hparse]
  rcases hmethod with h | h <;> simp [h, hrouting, hparams, hreq]

/-- C5, witness for the amended statement at topic a/b/get. -/
theorem busFailureMessageWrapped_witness :
    collabBusTimeout.request envSample ['s'] ['t'] = Except.error "timeout" ∧
    commandRequestHandler configSample collabBusTimeout
        ⟨['a', '/', 'b', '/', 'g', 'e', 't'], []⟩ =
      [⟨goJoin [configSample.externalMQTT.commandResponseRoot, ['a'], ['b'], getMethod],
        configSample.externalMQTT.qos, configSample.externalMQTT.retain,
        NewMessageEnvelopeWithError envSample.requestID (internalBusFailureText ++ "timeout")⟩] :=
  ⟨rfl,
   busFailureMessageWrapped configSample collabBusTimeout
     ⟨['a', '/', 'b', '/', 'g', 'e', 't'], []⟩ envSample
     ['a'] ['b'] getMethod ['s'] ['t'] "timeout" rfl (by decide)
     (Or.inl (by decide)) rfl rfl rfl⟩

/-- C6: when every gate passes and the internal bus request succeeds, the
handler publishes the received response envelope itself, unmodified, to
the topic response-root/device/command/method, and nothing else. -/
theorem successPassthrough (config : ConfigurationStruct) (collab : Collaborators)
    (message : MqttMessage) (env response : MessageEnvelope) (d c m sn rt : Str)
    (hdec : collab.NewMessageEnvelopeFromJSON message.payload = .ok env)
    (hparse : parseCommandTopic message.topic = some (d, c, m))
    (hmethod : equalFold m getMethod = true ∨ equalFold m setMethod = true)
    (hrouting : collab.validateRequestTopic config.messageBus.deviceCommandRequestRoot d c m
      = .ok (sn, rt))
    (hparams : collab.validateGetCommandQueryParameters env.queryParams = .ok ())
    (hreq : collab.request env sn rt = .ok response) :
    commandRequestHandler config collab message =
      [⟨goJoin [config.externalMQTT.commandResponseRoot, d, c, m],
        config.externalMQTT.qos, config.externalMQTT.retain, response⟩] := by
  rw [commandRequestHandler_parsed config collab message env d c m hdec hparse]
  rcases hmethod with h | h <;> simp [h, hrouting, hparams, hreq]

/-- C6, witness: the end-to-end success scenario on topic a/b/get with
the sample collaborators, whose bus response carries payload
"response". -/
theorem successPassthrough_witness :
    collabOk.request envSample ['s'] ['t'] = Except.ok { envSample with payload := "response" } ∧
    commandRequestHandler configSample collabOk ⟨['a', '/', 'b', '/', 'g', 'e', 't'], []⟩ =
      [⟨goJoin [configSample.externalMQTT.commandResponseRoot, ['a'], ['b'], getMethod],
        configSample.externalMQTT.qos, configSample.externalMQTT.retain,
        { envSample with payload := "response" }⟩] :=
  ⟨rfl,
   successPassthrough configSample collabOk ⟨['a', '/', 'b', '/', 'g', 'e', 't'], []⟩
     envSample { envSample with payload := "response" }
     ['a'] ['b'] getMethod ['s'] ['t'] rfl (by decide)
     (Or.inl (by decide)) rfl rfl rfl⟩

/-- getD at the offsets of the appended triple picks its components. -/
theorem getD_append_triple (pre : List Str) (d c m : Str) :
    ((pre ++ [d, c, m]).getD pre.length [] = d) ∧
    ((pre ++ [d, c, m]).getD (pre.length + 1) [] = c) ∧
    ((pre ++ [d, c, m]).getD (pre.length + 2) [] = m) := by
  induction pre with
  | nil => exact ⟨rfl, rfl, rfl⟩
  | cons x xs ih => simpa using ih

/-- C7: command-topic parsing yields exactly the last three topic levels
in order, whatever the number and content of the preceding levels, and
fails on every topic with fewer than 3 levels. -/
theorem parseCommandTopic_lastThree (pre : List Str) (d c m : Str) (t : Str)
    (hpre : ∀ l ∈ pre, slash ∉ l) (hd : slash ∉ d) (hc : slash ∉ c) (hm : slash ∉ m)
    (ht : (t.splitOn slash).length < 3) :
    parseCommandTopic (goJoin (pre ++ [d, c, m])) = some (d, c, m) ∧
    parseCommandTopic t = none := by
  constructor
  · have hsplit : (goJoin (pre ++ [d, c, m])).splitOn slash = pre ++ [d, c, m] := by
      unfold goJoin
      apply List.splitOn_intercalate
      · intro l hl
        rcases List.mem_append.mp hl with h | h
        · exact hpre l h
        · simp only [List.mem_cons, List.mem_singleton] at h
          rcases h with rfl | rfl | rfl | h
          · exact hd
          · exact hc
          · exact hm
          · cases h
      · simp
    obtain ⟨g1, g2, g3⟩ := getD_append_triple pre d c m
    have hlen : (pre ++ [d, c, m]).length = pre.length + 3 := by simp
    simp only [parseCommandTopic, hsplit, hlen]
    rw [if_neg (by omega)]
    have e1 : pre.length + 3 - 3 = pre.length := by omega
    have e2 : pre.length + 3 - 2 = pre.length + 1 := by omega
    have e3 : pre.length + 3 - 1 = pre.length + 2 := by omega
    rw [e1, e2, e3, g1, g2, g3]
  · simp only [parseCommandTopic]
    rw [if_pos ht]

/-- C7, witness: topic ex/d/c/g parses to its last three levels, and the
2-level topic a/b fails to parse. -/
theorem parseCommandTopic_lastThree_witness :
    (∀ l ∈ ([['e', 'x']] : List Str), slash ∉ l) ∧
    ((['a', '/', 'b'] : Str).splitOn slash).length < 3 ∧
    (parseCommandTopic (goJoin ([['e', 'x']] ++ [['d'], ['c'], ['g']])) =
       some (['d'], ['c'], ['g']) ∧
     parseCommandTopic ['a', '/', 'b'] = none) :=
  ⟨by decide, by decide,
   parseCommandTopic_lastThree [['e', 'x']] ['d'] ['c'] ['g'] ['a', '/', 'b']
     (by decide) (by decide) (by decide) (by decide) (by decide)⟩

/-- C8: every query topic whose last level is a casing of "all" yields
the canonical sentinel as device name, so all casings hand the command
query collaborator the identical device-name argument and produce
identical handler behaviour. -/
theorem queryAllNormalization (config : ConfigurationStruct) (collab : Collaborators)
    (p t1 t2 : Str)
    (h1 : equalFold (rawQueryDeviceName t1) allKeyword = true)
    (h2 : equalFold (rawQueryDeviceName t2) allKeyword = true) :
    queryDeviceName t1 = allKeyword ∧
    commandQueryHandler config collab ⟨t1, p⟩ = commandQueryHandler config collab ⟨t2, p⟩ := by
  have e1 : queryDeviceName t1 = allKeyword := by simp [queryDeviceName, h1]
  have e2 : queryDeviceName t2 = allKeyword := by simp [queryDeviceName, h2]
  refine ⟨e1, ?_⟩
  simp only [commandQueryHandler, e1, e2]

/-- C8, witness: the topics q/All and q/aLL produce the same canonical
device name and the same handler behaviour. -/
theorem queryAllNormalization_witness :
    equalFold (rawQueryDeviceName ['q', '/', 'A', 'l', 'l']) allKeyword = true ∧
    (queryDeviceName ['q', '/', 'A', 'l', 'l'] = allKeyword ∧
     commandQueryHandler configSample collabOk ⟨['q', '/', 'A', 'l', 'l'], ['p']⟩ =
       commandQueryHandler configSample collabOk ⟨['q', '/', 'a', 'L', 'L'], ['p']⟩) :=
  ⟨by decide,
   queryAllNormalization configSample collabOk ['p']
     ['q', '/', 'A', 'l', 'l'] ['q', '/', 'a', 'L', 'L'] (by decide) (by decide)⟩

/-- A marshal stub returning fixed bytes and no error. -/
def marshalBytesOnly : MessageEnvelope → Str × Option String := fun _ => (['b'], none)

/-- A marshal stub returning the same bytes together with an error. -/
def marshalWithFailure : MessageEnvelope → Str × Option String :=
  fun _ => (['b'], some "marshal error")

/-- C9: publishMessage never looks at the marshal error (marshal
outcomes with the same bytes behave identically whatever their error
components), always performs exactly one broker publish carrying the
marshalled bytes, and the broker outcome influences nothing but the
log. -/
theorem publishMessage_spec (marshal marshal2 : MessageEnvelope → Str × Option String)
    (e1 e2 : Option String) (t : Str) (q : Nat) (r : Bool) (msg : MessageEnvelope)
    (hbytes : (marshal msg).1 = (marshal2 msg).1) :
    (publishMessage marshal e1 t q r msg).1 = ⟨t, q, r, (marshal msg).1⟩ ∧
    publishMessage marshal e1 t q r msg = publishMessage marshal2 e1 t q r msg ∧
    (publishMessage marshal e1 t q r msg).1 = (publishMessage marshal2 e2 t q r msg).1 := by
  refine ⟨rfl, ?_, ?_⟩ <;> simp [publishMessage, hbytes]

/-- C9, witness: a failing marshal and a failing broker publish behave
like the successful ones apart from the log. -/
theorem publishMessage_spec_witness :
    (marshalBytesOnly envSample).1 = (marshalWithFailure envSample).1 ∧
    ((publishMessage marshalBytesOnly none ['t'] 1 false envSample).1 =
        ⟨['t'], 1, false, (marshalBytesOnly envSample).1⟩ ∧
     publishMessage marshalBytesOnly none ['t'] 1 false envSample =
       publishMessage marshalWithFailure none ['t'] 1 false envSample ∧
     (publishMessage marshalBytesOnly none ['t'] 1 false envSample).1 =
       (publishMessage marshalWithFailure (some "pub failed") ['t'] 1 false envSample).1) :=
  ⟨rfl,
   publishMessage_spec marshalBytesOnly marshalWithFailure none (some "pub failed")
     ['t'] 1 false envSample rfl⟩

/-- splitOn on a cons cell, specialised to the slash separator. -/
theorem splitOn_slash_cons (x : Char) (xs : Str) :
    (x :: xs).splitOn slash =
      if x = slash then [] :: xs.splitOn slash
      else (xs.splitOn slash).modifyHead (List.cons x) := by
  simp only [List.splitOn, List.splitOnP_cons]
  by_cases h : x = slash
  · simp [h]
  · simp [h]

/-- A slash-free list splits into just itself. -/
theorem splitOn_slash_eq_single {t : Str} (h : slash ∉ t) : t.splitOn slash = [t] := by
  unfold List.splitOn
  apply List.splitOnP_eq_single
  intro x hx hxeq
  rw [beq_iff_eq] at hxeq
  exact h (hxeq ▸ hx)

/-- getD at the index just before an appended singleton. -/
theorem getD_concat (gs : List Str) (b : Str) : (gs ++ [b]).getD gs.length [] = b := by
  induction gs with
  | nil => rfl
  | cons x xs ih => simp

/-- Splitting a topic of the shape a ++ "/" ++ b with b slash-free: the
split ends with b and has at least two groups. -/
theorem splitOn_slash_append (a b : Str) (hb : slash ∉ b) :
    ∃ gs : List Str, (a ++ slash :: b).splitOn slash = gs ++ [b] ∧ gs ≠ [] := by
  induction a with
  | nil =>
    refine ⟨[[]], ?_, by simp⟩
    rw [List.nil_append, splitOn_slash_cons, if_pos rfl, splitOn_slash_eq_single hb]
    rfl
  | cons x a ih =>
    obtain ⟨gs, hgs, hne⟩ := ih
    by_cases hx : x = slash
    · refine ⟨[] :: gs, ?_, by simp⟩
      rw [List.cons_append, splitOn_slash_cons, if_pos hx, hgs]
      rfl
    · obtain ⟨g, gs2, rfl⟩ := List.exists_cons_of_ne_nil hne
      refine ⟨(x :: g) :: gs2, ?_, by simp⟩
      rw [List.cons_append, splitOn_slash_cons, if_neg hx, hgs]
      rfl

/-- The raw query device name of a slash-free topic is the whole topic. -/
theorem rawQueryDeviceName_noSlash {t : Str} (h : slash ∉ t) : rawQueryDeviceName t = t := by
  simp only [rawQueryDeviceName, splitOn_slash_eq_single h]
  rfl

/-- The raw query device name of a ++ "/" ++ b with b slash-free is b. -/
theorem rawQueryDeviceName_append (a b : Str) (hb : slash ∉ b) :
    rawQueryDeviceName (a ++ slash :: b) = b := by
  obtain ⟨gs, hgs, hne⟩ := splitOn_slash_append a b hb
  simp only [rawQueryDeviceName, hgs]
  have hl : (gs ++ [b]).length - 1 = gs.length := by simp
  rw [hl]
  exact getD_concat gs b

/-- C10: query-path device-name extraction is total: for a topic of the
shape a ++ "/" ++ b (b slash-free) it yields b, for a slash-free topic
(the empty topic included) it yields the whole topic, and for every
decodable request with a configured response topic the query handler
proceeds to exactly one publish. -/
theorem queryDeviceNameTotal (config : ConfigurationStruct) (collab : Collaborators)
    (a b t p : Str) (env : MessageEnvelope)
    (hb : slash ∉ b) (ht : slash ∉ t)
    (hdec : collab.NewMessageEnvelopeFromJSON p = .ok env)
    (hqrt : config.externalMQTT.queryResponseTopic ≠ []) :
    rawQueryDeviceName (a ++ slash :: b) = b ∧
    rawQueryDeviceName t = t ∧
    (commandQueryHandler config collab ⟨a ++ slash :: b, p⟩).length = 1 := by
  refine ⟨rawQueryDeviceName_append a b hb, rawQueryDeviceName_noSlash ht, ?_⟩
  simp only [commandQueryHandler, hdec]
  rw [if_neg hqrt]
  simp

/-- C10, witness: the topic q/d, the empty topic, and one publish by the
query handler on q/d. -/
theorem queryDeviceNameTotal_witness :
    (slash ∉ (['d'] : Str)) ∧ (slash ∉ ([] : Str)) ∧
    configSample.externalMQTT.queryResponseTopic ≠ [] ∧
    (rawQueryDeviceName (['q'] ++ slash :: ['d']) = ['d'] ∧
     rawQueryDeviceName [] = [] ∧
     (commandQueryHandler configSample collabOk ⟨['q'] ++ slash :: ['d'], ['p']⟩).length = 1) :=
  ⟨by decide, by decide, by decide,
   queryDeviceNameTotal configSample collabOk ['q'] ['d'] [] ['p'] envSample
     (by decide) (by decide) rfl (by decide)⟩
